import Mathlib

/-!
Verification development for the Tiles_Store stock and billing application
(src/tiles_stock_app/app.py). The application state is embedded shallowly:
database tables become lists of records, monetary float columns become
rationals, integer quantity columns become integers, and each route handler
becomes a pure function from state (plus the parsed form data) to state.
-/

namespace TilesStore

/-- A row of the User table (app.py, class User). -/
structure User where
  id : Nat
  username : String
  email : Option String
  password : String
  role : String
  is_active : Bool
  created_by : Option Nat
  deriving Repr, DecidableEq

/-- A row of the Tile table (app.py, class Tile): the stock item. -/
structure Tile where
  id : Nat
  brand : String
  size : String
  buy_price : Option ℚ
  price : ℚ
  quantity : ℤ
  deriving Repr, DecidableEq

/-- A row of the Bill table (app.py, class Bill). -/
structure Bill where
  id : Nat
  customer_name : Option String
  customer_mobile : Option String
  total : ℚ
  gst : ℚ
  discount : ℚ
  deriving Repr, DecidableEq

/-- A row of the BillItem table (app.py, class BillItem): a snapshotted
line of a bill. -/
structure BillItem where
  bill_id : Nat
  tile_name : String
  size : String
  price : ℚ
  quantity : ℤ
  total : ℚ
  deriving Repr, DecidableEq

/-- The session established by login: user id, username and role. -/
structure Session where
  user_id : Nat
  user : String
  role : String
  deriving Repr, DecidableEq

/-- The whole application state: the four tables, the autoincrement
counter for bill ids, and the (optional) session. -/
structure AppState where
  users : List User
  tiles : List Tile
  bills : List Bill
  billItems : List BillItem
  nextBillId : Nat
  session : Option Session
  deriving Repr, DecidableEq

/-! ## Billing transaction (app.py, billing, lines 341-387) -/

/-- The parsed POST form of the /billing route: customer fields, gst
percentage, flat discount, and the requested quantity per tile id
(request.form.get qty_id with default 0). -/
structure BillingForm where
  customer_name : Option String
  customer_mobile : Option String
  gst : ℚ
  discount : ℚ
  qty : Nat → ℤ

/-- One iteration of the loop over the catalog (app.py lines 365-380):
read the requested quantity for this tile; when it is positive and at
most the on-hand quantity, decrement the stock and emit a snapshotted
BillItem with line total price * qty; otherwise leave the tile alone and
emit nothing. -/
def processTile (qty : Nat → ℤ) (billId : Nat) (t : Tile) : Tile × Option BillItem :=
  let q := qty t.id
  if 0 < q ∧ q ≤ t.quantity then
    ({ t with quantity := t.quantity - q },
     some { bill_id := billId, tile_name := t.brand, size := t.size,
            price := t.price, quantity := q, total := t.price * (q : ℚ) })
  else (t, none)

/-- The tile list after the billing loop: each catalog tile updated by
its own loop iteration (app.py lines 365-368). -/
def billingTiles (s : AppState) (f : BillingForm) : List Tile :=
  (s.tiles.map (processTile f.qty s.nextBillId)).map Prod.fst

/-- The BillItem rows emitted by the billing loop, in catalog order
(app.py lines 372-380). -/
def billingItems (s : AppState) (f : BillingForm) : List BillItem :=
  (s.tiles.map (processTile f.qty s.nextBillId)).filterMap Prod.snd

/-- The subtotal accumulated by the billing loop: the sum of the emitted
line totals (app.py lines 363, 370). -/
def billingSubtotalVal (s : AppState) (f : BillingForm) : ℚ :=
  ((billingItems s f).map BillItem.total).sum

/-- The bill row as persisted at the end of the billing transaction
(app.py lines 353-361 and 382). -/
def billingBill (s : AppState) (f : BillingForm) : Bill :=
  { id := s.nextBillId
    customer_name := f.customer_name
    customer_mobile := f.customer_mobile
    total := billingSubtotalVal s f + billingSubtotalVal s f * f.gst / 100 - f.discount
    gst := f.gst
    discount := f.discount }

/-- The /billing POST handler (app.py lines 346-385): create a bill row
with a fresh id, run the loop over every tile of the catalog, sum the
line totals into the subtotal, and store
total = subtotal + subtotal * gst / 100 - discount on the bill. Returns
the new state together with the id of the persisted bill. -/
def billing (s : AppState) (f : BillingForm) : AppState × Nat :=
  ({ s with tiles := billingTiles s f
            bills := s.bills ++ [billingBill s f]
            billItems := s.billItems ++ billingItems s f
            nextBillId := s.nextBillId + 1 }, s.nextBillId)

/-- Iterated billing transactions: fold the handler over a list of forms. -/
def billingMany (s : AppState) (fs : List BillingForm) : AppState :=
  fs.foldl (fun s f => (billing s f).1) s

/-! ## Bill editing and deletion (app.py, edit_bill lines 509-531 and
delete_bill lines 534-546) -/

/-- The parsed POST form of /edit_bill: customer fields, gst, discount. -/
structure EditBillForm where
  customer_name : String
  customer_mobile : Option String
  gst : ℚ
  discount : ℚ

/-- The persisted subtotal of a bill: the sum of the totals of the
BillItem rows whose bill_id is the given id (the query of app.py lines
521-523, also recomputed by the invoice view). -/
def billSubtotal (s : AppState) (billId : Nat) : ℚ :=
  ((s.billItems.filter (fun it => it.bill_id == billId)).map BillItem.total).sum

/-- The /edit_bill POST handler (app.py lines 509-531): 404 when no bill
has the id; otherwise overwrite the customer fields, gst and discount of
that bill and recompute its total from the already persisted sum of its
BillItem totals. -/
def edit_bill (s : AppState) (billId : Nat) (f : EditBillForm) : Option AppState :=
  match s.bills.find? (fun b => b.id == billId) with
  | none => none
  | some _ =>
    let subtotal := billSubtotal s billId
    some { s with bills := s.bills.map (fun b =>
      if b.id = billId then
        { b with customer_name := some f.customer_name
                 customer_mobile := f.customer_mobile
                 gst := f.gst
                 discount := f.discount
                 total := subtotal + subtotal * f.gst / 100 - f.discount }
      else b) }

/-- The /delete_bill handler (app.py lines 534-546): 404 when no bill has
the id; otherwise delete every BillItem row of the bill, then the Bill
row. Stock is not touched. -/
def delete_bill (s : AppState) (billId : Nat) : Option AppState :=
  match s.bills.find? (fun b => b.id == billId) with
  | none => none
  | some _ =>
    some { s with billItems := s.billItems.filter (fun it => ¬ it.bill_id = billId)
                  bills := s.bills.filter (fun b => ¬ b.id = billId) }

/-! ## Tile CRUD (app.py, edit_tile lines 310-327, delete_tile lines
330-337) -/

/-- The parsed POST form of /add_tile and /edit_tile. -/
structure TileForm where
  brand : String
  size : String
  buy_price : Option ℚ
  price : ℚ
  quantity : ℤ

/-- The /edit_tile POST handler (app.py lines 310-327): 404 when no tile
has the id; otherwise overwrite every field of that tile from the form. -/
def edit_tile (s : AppState) (id : Nat) (f : TileForm) : Option AppState :=
  match s.tiles.find? (fun t => t.id == id) with
  | none => none
  | some _ =>
    some { s with tiles := s.tiles.map (fun t =>
      if t.id = id then
        { t with brand := f.brand, size := f.size, buy_price := f.buy_price,
                 price := f.price, quantity := f.quantity }
      else t) }

/-- The /delete_tile handler (app.py lines 330-337): 404 when no tile has
the id; otherwise delete the tile row. -/
def delete_tile (s : AppState) (id : Nat) : Option AppState :=
  match s.tiles.find? (fun t => t.id == id) with
  | none => none
  | some _ => some { s with tiles := s.tiles.filter (fun t => ¬ t.id = id) }

/-! ## Authentication (app.py, login lines 97-122) -/

/-- Outcome of a login attempt. -/
inductive LoginResult where
  | invalidCredentials
  | accountDeactivated
  | success
  deriving Repr, DecidableEq

/-- The / POST handler (app.py lines 103-121), for a request with no
session yet. The stored password hash is compared with the submitted
password by the external check function (werkzeug check_password_hash),
passed in as a parameter. The lookup is by exact username match, first
row wins; a missing user or a hash mismatch is invalid credentials; an
inactive user is rejected as deactivated; otherwise the session is set
to the user id, username and role. -/
def login (checkHash : String → String → Bool) (s : AppState)
    (username password : String) : AppState × LoginResult :=
  match s.users.find? (fun u => u.username == username) with
  | none => (s, .invalidCredentials)
  | some u =>
    if checkHash u.password password then
      if u.is_active then
        ({ s with session := some { user_id := u.id, user := u.username, role := u.role } },
         .success)
      else (s, .accountDeactivated)
    else (s, .invalidCredentials)

/-! ## User administration (app.py, create_user lines 157-212,
toggle_user_active lines 249-265, delete_user lines 268-284) -/

/-- The parsed POST form of /admin/users/create (username and email
already stripped). -/
structure CreateUserForm where
  username : String
  email : Option String
  password : String
  confirm_password : String
  role : String

/-- The /admin/users/create POST handler (app.py lines 161-210): run the
validations in source order; on any failure return the state unchanged
together with the flashed message; on success append the new user row,
with the password hashed by the external hash function. -/
def create_user (hash : String → String) (s : AppState) (sessionUid : Option Nat)
    (f : CreateUserForm) (newId : Nat) : AppState × Option String :=
  if f.username = "" then (s, some "Username is required")
  else if f.username.length < 3 then (s, some "Username must be at least 3 characters")
  else if (s.users.find? (fun u => u.username == f.username)).isSome then
    (s, some "Username already exists")
  else if f.password = "" then (s, some "Password is required")
  else if f.password.length < 6 then (s, some "Password must be at least 6 characters")
  else if ¬ f.password = f.confirm_password then (s, some "Passwords do not match")
  else if ¬ (f.role = "admin" ∨ f.role = "staff") then (s, some "Invalid role selected")
  else
    let u : User :=
      { id := newId
        username := f.username
        email := f.email
        password := hash f.password
        role := f.role
        is_active := true
        created_by := sessionUid }
    ({ s with users := s.users ++ [u] }, none)

/-- Outcome of the admin actions on a target user: 404, rejected
self-modification (state carried unchanged), or performed. -/
inductive AdminActionResult where
  | notFound
  | selfRejected (s : AppState)
  | done (s : AppState)
  deriving Repr, DecidableEq

/-- The /admin/users/id/toggle-active handler (app.py lines 249-265):
404 when the user id is absent; reject without any change when the
target is the session user; otherwise flip the active flag. -/
def toggle_user_active (s : AppState) (sessionUid : Nat) (userId : Nat) :
    AdminActionResult :=
  match s.users.find? (fun u => u.id == userId) with
  | none => .notFound
  | some u =>
    if u.id = sessionUid then .selfRejected s
    else .done { s with users := s.users.map (fun v =>
      if v.id = userId then { v with is_active := !v.is_active } else v) }

/-- The /admin/users/id/delete handler (app.py lines 268-284): 404 when
the user id is absent; reject without any change when the target is the
session user; otherwise delete the row. -/
def delete_user (s : AppState) (sessionUid : Nat) (userId : Nat) :
    AdminActionResult :=
  match s.users.find? (fun u => u.id == userId) with
  | none => .notFound
  | some u =>
    if u.id = sessionUid then .selfRejected s
    else .done { s with users := s.users.filter (fun v => ¬ v.id = userId) }

/-! ## Concrete fixtures

Small concrete states used by the scenario conjuncts and by the witness
theorems below. -/

/-- Catalog item A of the spec scenario: quantity 10, price 100. -/
def tileA : Tile :=
  { id := 1, brand := "A", size := "S", buy_price := none, price := 100, quantity := 10 }

/-- Initial state of the spec scenario: catalog [tileA], empty tables. -/
def s0 : AppState :=
  { users := [], tiles := [tileA], bills := [], billItems := [], nextBillId := 1,
    session := none }

/-- Billing request of the spec scenario: line (tileA, qty 5), gst 18,
discount 20. -/
def f0 : BillingForm :=
  { customer_name := none, customer_mobile := none, gst := 18, discount := 20,
    qty := fun i => if i = 1 then 5 else 0 }

/-- Catalog item B: quantity 3, price 50. -/
def tileB : Tile :=
  { id := 2, brand := "B", size := "M", buy_price := none, price := 50, quantity := 3 }

/-- State with catalog [tileB] only. -/
def s1 : AppState :=
  { users := [], tiles := [tileB], bills := [], billItems := [], nextBillId := 1,
    session := none }

/-- Billing request asking for 5 of tileB (only 3 on hand), discount 20. -/
def f1 : BillingForm :=
  { customer_name := none, customer_mobile := none, gst := 18, discount := 20,
    qty := fun i => if i = 2 then 5 else 0 }

/-- A stored admin user. -/
def userAlice : User :=
  { id := 7, username := "alice", email := none, password := "pw123456",
    role := "admin", is_active := true, created_by := none }

/-- State whose user table holds only userAlice. -/
def sAuth : AppState :=
  { users := [userAlice], tiles := [], bills := [], billItems := [], nextBillId := 1,
    session := none }

/-- A persisted bill with id 1 (the bill of the spec scenario). -/
def bill1 : Bill :=
  { id := 1, customer_name := none, customer_mobile := none, total := 570, gst := 18,
    discount := 20 }

/-- A second persisted bill with id 2. -/
def bill2 : Bill :=
  { id := 2, customer_name := none, customer_mobile := none, total := 100, gst := 0,
    discount := 0 }

/-- The line of bill 1: 5 of item A at 100. -/
def item1 : BillItem :=
  { bill_id := 1, tile_name := "A", size := "S", price := 100, quantity := 5,
    total := 500 }

/-- The line of bill 2: 2 of item B at 50. -/
def item2 : BillItem :=
  { bill_id := 2, tile_name := "B", size := "M", price := 50, quantity := 2,
    total := 100 }

/-- State holding two persisted bills with their lines and catalog
[tileA]. -/
def sBill : AppState :=
  { users := [userAlice], tiles := [tileA], bills := [bill1, bill2],
    billItems := [item1, item2], nextBillId := 3, session := none }

/-- An edit form for a tile. -/
def tf0 : TileForm :=
  { brand := "A2", size := "S", buy_price := none, price := 120, quantity := 9 }

/-- An edit form for a bill: gst 10, discount 50. -/
def ef0 : EditBillForm :=
  { customer_name := "Bob", customer_mobile := none, gst := 10, discount := 50 }

/-- The state sBill after deleting bill 1. -/
def sBillDel : AppState :=
  { users := [userAlice], tiles := [tileA], bills := [bill2], billItems := [item2],
    nextBillId := 3, session := none }

/-- Bill 1 after the edit ef0: gst 10, discount 50, recomputed total
500 + 500 * 10 / 100 - 50 = 500. -/
def bill1Edited : Bill :=
  { id := 1, customer_name := some "Bob", customer_mobile := none, total := 500,
    gst := 10, discount := 50 }

/-- The state sBill after editing bill 1 with ef0. -/
def sBillEdited : AppState :=
  { users := [userAlice], tiles := [tileA], bills := [bill1Edited, bill2],
    billItems := [item1, item2], nextBillId := 3, session := none }

/-- Tile A after the edit tf0: brand A2, price 120, quantity 9. -/
def tileA2 : Tile :=
  { id := 1, brand := "A2", size := "S", buy_price := none, price := 120,
    quantity := 9 }

/-- The state sBill after editing tile 1 with tf0. -/
def sBillTileEd : AppState :=
  { users := [userAlice], tiles := [tileA2], bills := [bill1, bill2],
    billItems := [item1, item2], nextBillId := 3, session := none }

/-- A user-creation form whose username duplicates the stored user. -/
def cf0 : CreateUserForm :=
  { username := "alice", email := none, password := "secret99",
    confirm_password := "secret99", role := "staff" }

/-! ## Shared lemmas about the billing loop -/

/-- Anatomy of an emitted line: a loop iteration that emits a BillItem
gives it the bill id, the snapshotted price, the requested quantity and
line total price * quantity, and only fires when the request is positive
and within stock. -/
theorem processTile_snd_eq_some (q : Nat → ℤ) (b : Nat) (t : Tile) (x : BillItem)
    (h : (processTile q b t).2 = some x) :
    x.bill_id = b ∧ x.tile_name = t.brand ∧ x.size = t.size ∧ x.price = t.price ∧
      x.quantity = q t.id ∧ x.total = x.price * (x.quantity : ℚ) ∧
      0 < q t.id ∧ q t.id ≤ t.quantity := by
  unfold processTile at h
  simp only [apply_ite Prod.snd] at h
  split at h
  · next hc =>
    simp only [Option.some.injEq] at h
    subst h
    simp_all
  · simp at h

/-- A loop iteration that does not fire leaves the tile unchanged and
emits nothing. -/
theorem processTile_skip (q : Nat → ℤ) (b : Nat) (t : Tile)
    (h : q t.id ≤ 0 ∨ t.quantity < q t.id) :
    processTile q b t = (t, none) := by
  unfold processTile
  rw [if_neg]
  omega

/-- A loop iteration that fires decrements the tile by the requested
quantity. -/
theorem processTile_fire (q : Nat → ℤ) (b : Nat) (t : Tile)
    (h : 0 < q t.id ∧ q t.id ≤ t.quantity) :
    (processTile q b t).1 = { t with quantity := t.quantity - q t.id } := by
  unfold processTile
  rw [if_pos h]

/-- Every line emitted by the billing loop carries the fresh bill id and
a line total equal to its snapshotted price times its quantity. -/
theorem mem_billingItems (s : AppState) (f : BillingForm) (x : BillItem)
    (hx : x ∈ billingItems s f) :
    x.bill_id = s.nextBillId ∧ x.total = x.price * (x.quantity : ℚ) := by
  unfold billingItems at hx
  rw [List.filterMap_map] at hx
  rcases List.mem_filterMap.mp hx with ⟨t, _, hsome⟩
  have h := processTile_snd_eq_some f.qty s.nextBillId t x hsome
  tauto

/-- The billing transaction appends its loop output to the BillItem
table. -/
theorem billing_fst_billItems (s : AppState) (f : BillingForm) :
    (billing s f).1.billItems = s.billItems ++ billingItems s f := rfl

/-- The billing transaction appends the freshly built bill to the Bill
table. -/
theorem billing_fst_bills (s : AppState) (f : BillingForm) :
    (billing s f).1.bills = s.bills ++ [billingBill s f] := rfl

/-- The billing transaction replaces the catalog by the loop output. -/
theorem billing_fst_tiles (s : AppState) (f : BillingForm) :
    (billing s f).1.tiles = billingTiles s f := rfl

/-- The billing transaction reports the fresh bill id. -/
theorem billing_snd (s : AppState) (f : BillingForm) :
    (billing s f).2 = s.nextBillId := rfl

/-- After the transaction, the persisted subtotal of the fresh bill is
the subtotal the loop accumulated, provided no pre-existing line already
carried the fresh id. -/
theorem billSubtotal_after_billing (s : AppState) (f : BillingForm)
    (hfresh : ∀ it ∈ s.billItems, ¬ it.bill_id = s.nextBillId) :
    billSubtotal (billing s f).1 s.nextBillId = billingSubtotalVal s f := by
  unfold billSubtotal billingSubtotalVal
  rw [billing_fst_billItems, List.filter_append]
  have h1 : s.billItems.filter (fun it => it.bill_id == s.nextBillId) = [] := by
    rw [List.filter_eq_nil_iff]
    intro a ha
    simpa using hfresh a ha
  have h2 : (billingItems s f).filter (fun it => it.bill_id == s.nextBillId) =
      billingItems s f := by
    rw [List.filter_eq_self]
    intro a ha
    simpa using (mem_billingItems s f a ha).1
  rw [h1, h2, List.nil_append]

/-! ## Claim theorems -/

/-- C1: every bill persisted by the billing transaction stores
total = subtotal + subtotal * gst / 100 - discount, where subtotal is
the sum of the BillItem totals of that bill at creation time and each
line total is the snapshotted price times the quantity; in particular,
for a catalog item with quantity 10 and price 100, a request with line
(item, qty 5), gst 18, discount 20 produces subtotal 500, total 570, and
leaves the item quantity at 5. -/
theorem billing_total_formula :
    (∀ (s : AppState) (f : BillingForm),
      (∀ it ∈ s.billItems, ¬ it.bill_id = s.nextBillId) →
      (((billing s f).1.bills.getLast?).isSome ∧
       ∀ b, (billing s f).1.bills.getLast? = some b →
        b.id = (billing s f).2 ∧ b.gst = f.gst ∧ b.discount = f.discount ∧
        (∀ it ∈ (billing s f).1.billItems, it.bill_id = b.id →
          it.total = it.price * (it.quantity : ℚ)) ∧
        b.total = billSubtotal (billing s f).1 b.id +
          billSubtotal (billing s f).1 b.id * f.gst / 100 - f.discount)) ∧
    ((billing s0 f0).1.bills.map Bill.total = [570] ∧
     billSubtotal (billing s0 f0).1 1 = 500 ∧
     (billing s0 f0).1.tiles.map Tile.quantity = [5]) := by
  constructor
  · intro s f hfresh
    constructor
    · rw [billing_fst_bills, List.getLast?_concat]
      rfl
    · intro b hb
      rw [billing_fst_bills, List.getLast?_concat, Option.some.injEq] at hb
      subst hb
      refine ⟨rfl, rfl, rfl, ?_, ?_⟩
      · intro it hit hid
        rw [billing_fst_billItems] at hit
        rcases List.mem_append.mp hit with hold | hnew
        · exact absurd hid (hfresh it hold)
        · exact (mem_billingItems s f it hnew).2
      · have hid : (billingBill s f).id = s.nextBillId := rfl
        rw [hid, billSubtotal_after_billing s f hfresh]
        rfl
  · refine ⟨?_, ?_, ?_⟩
    · simp [billing, billingBill, billingSubtotalVal, billingItems, billingTiles,
        processTile, s0, f0, tileA]
      norm_num
    · simp [billSubtotal, billing, billingBill, billingSubtotalVal, billingItems,
        billingTiles, processTile, s0, f0, tileA]
      norm_num
    · simp [billing, billingTiles, processTile, s0, f0, tileA]

/-- Witness for C1: the hypotheses of the general part are satisfiable at
the concrete scenario state. -/
theorem billing_total_formula_witness :
    ((billing s0 f0).1.bills.getLast?).isSome ∧
    ∀ b, (billing s0 f0).1.bills.getLast? = some b →
      b.id = (billing s0 f0).2 ∧ b.gst = f0.gst ∧ b.discount = f0.discount ∧
      (∀ it ∈ (billing s0 f0).1.billItems, it.bill_id = b.id →
        it.total = it.price * (it.quantity : ℚ)) ∧
      b.total = billSubtotal (billing s0 f0).1 b.id +
        billSubtotal (billing s0 f0).1 b.id * f0.gst / 100 - f0.discount :=
  billing_total_formula.1 s0 f0 (by simp [s0])

/-- C2: a billing line whose requested quantity is not positive or
exceeds the on-hand quantity is skipped: the loop iteration emits no
BillItem and leaves the tile unchanged, and the tile row of the
resulting state is the old one. The handler signals no error in this
case: the embedded transaction is a total function and the skipped line
is simply absent from the bill. -/
theorem billing_skips_unsatisfiable (s : AppState) (f : BillingForm) (i : Nat)
    (t : Tile) (ht : s.tiles[i]? = some t)
    (h : f.qty t.id ≤ 0 ∨ t.quantity < f.qty t.id) :
    processTile f.qty s.nextBillId t = (t, none) ∧
    (billing s f).1.tiles[i]? = some t := by
  have hskip := processTile_skip f.qty s.nextBillId t h
  refine ⟨hskip, ?_⟩
  rw [billing_fst_tiles]
  unfold billingTiles
  rw [List.getElem?_map, List.getElem?_map, ht]
  simp [hskip]

/-- Witness for C2: a request for 5 of an item with 3 on hand is
skipped. -/
theorem billing_skips_unsatisfiable_witness :
    processTile f1.qty s1.nextBillId tileB = (tileB, none) ∧
    (billing s1 f1).1.tiles[0]? = some tileB :=
  billing_skips_unsatisfiable s1 f1 0 tileB (by simp [s1])
    (Or.inr (by simp [f1, tileB]))

/-- One billing transaction keeps every stock quantity non-negative. -/
theorem billing_preserves_nonneg (s : AppState) (f : BillingForm)
    (h : ∀ t ∈ s.tiles, 0 ≤ t.quantity) :
    ∀ t ∈ (billing s f).1.tiles, 0 ≤ t.quantity := by
  intro t ht
  rw [billing_fst_tiles] at ht
  unfold billingTiles at ht
  rw [List.map_map] at ht
  rcases List.mem_map.mp ht with ⟨u, hu, hm⟩
  subst hm
  rw [Function.comp_apply]
  by_cases hc : 0 < f.qty u.id ∧ f.qty u.id ≤ u.quantity
  · rw [processTile_fire f.qty s.nextBillId u hc]
    dsimp only
    omega
  · rw [processTile_skip f.qty s.nextBillId u (by omega)]
    exact h u hu

/-- Any sequence of billing transactions keeps every stock quantity
non-negative. -/
theorem billingMany_nonneg (fs : List BillingForm) : ∀ (s : AppState),
    (∀ t ∈ s.tiles, 0 ≤ t.quantity) →
    ∀ t ∈ (billingMany s fs).tiles, 0 ≤ t.quantity := by
  induction fs with
  | nil =>
    intro s h
    simpa [billingMany] using h
  | cons f fs ih =>
    intro s h
    have hstep : billingMany s (f :: fs) = billingMany (billing s f).1 fs := rfl
    rw [hstep]
    exact ih (billing s f).1 (billing_preserves_nonneg s f h)

/-- C3: starting from non-negative stock, any number of billing
transactions leaves every stock quantity non-negative; moreover a loop
iteration changes a tile quantity only when the requested quantity is
positive and at most the on-hand quantity. -/
theorem billing_stock_nonneg (s : AppState) (fs : List BillingForm)
    (h : ∀ t ∈ s.tiles, 0 ≤ t.quantity) :
    (∀ t ∈ (billingMany s fs).tiles, 0 ≤ t.quantity) ∧
    (∀ (f : BillingForm) (b : Nat) (t : Tile),
      ¬ (processTile f.qty b t).1.quantity = t.quantity →
      0 < f.qty t.id ∧ f.qty t.id ≤ t.quantity) := by
  refine ⟨billingMany_nonneg fs s h, ?_⟩
  intro f b t hne
  by_cases hc : 0 < f.qty t.id ∧ f.qty t.id ≤ t.quantity
  · exact hc
  · rw [processTile_skip f.qty b t (by omega)] at hne
    exact absurd rfl hne

/-- Witness for C3: issuing the scenario request twice drains item A to
quantity 0, which is still non-negative. -/
theorem billing_stock_nonneg_witness :
    0 ≤ ({ tileA with quantity := 0 } : Tile).quantity :=
  (billing_stock_nonneg s0 [f0, f0] (by simp [s0, tileA])).1 _
    (by simp [billingMany, billing, billingTiles, processTile, s0, f0, tileA])

/-- C10: a billing transaction whose requested lines are all
unsatisfiable still appends a Bill row; that bill has no lines (the
BillItem table is unchanged) and its total is
0 + 0 * gst / 100 - discount = -discount, which is negative whenever
the discount is positive. -/
theorem billing_all_unsatisfiable (s : AppState) (f : BillingForm)
    (h : ∀ t ∈ s.tiles, f.qty t.id ≤ 0 ∨ t.quantity < f.qty t.id) :
    (billing s f).1.billItems = s.billItems ∧
    (billing s f).1.bills = s.bills ++ [billingBill s f] ∧
    (billingBill s f).id = (billing s f).2 ∧
    (billingBill s f).total = 0 + 0 * f.gst / 100 - f.discount ∧
    (billingBill s f).total = -f.discount ∧
    (0 < f.discount → (billingBill s f).total < 0) := by
  have hitems : billingItems s f = [] := by
    unfold billingItems
    rw [List.filterMap_map, List.filterMap_eq_nil_iff]
    intro t ht
    rw [Function.comp_apply, processTile_skip f.qty s.nextBillId t (h t ht)]
  have hsub : billingSubtotalVal s f = 0 := by
    unfold billingSubtotalVal
    rw [hitems]
    rfl
  have htot : (billingBill s f).total = -f.discount := by
    show billingSubtotalVal s f + billingSubtotalVal s f * f.gst / 100 - f.discount
      = -f.discount
    rw [hsub]
    ring
  refine ⟨?_, billing_fst_bills s f, rfl, ?_, htot, ?_⟩
  · rw [billing_fst_billItems, hitems, List.append_nil]
  · rw [htot]
    ring
  · intro hd
    rw [htot]
    linarith

/-- Witness for C10: requesting 5 of an item with 3 on hand, with
discount 20, yields an empty bill with total -20. -/
theorem billing_all_unsatisfiable_witness :
    (billing s1 f1).1.billItems = s1.billItems ∧
    (billing s1 f1).1.bills = s1.bills ++ [billingBill s1 f1] ∧
    (billingBill s1 f1).id = (billing s1 f1).2 ∧
    (billingBill s1 f1).total = 0 + 0 * f1.gst / 100 - f1.discount ∧
    (billingBill s1 f1).total = -f1.discount ∧
    (0 < f1.discount → (billingBill s1 f1).total < 0) :=
  billing_all_unsatisfiable s1 f1 (by
    intro t ht
    simp only [s1, List.mem_singleton] at ht
    subst ht
    right
    simp [f1, tileB])

/-- C4: deleting an existing bill removes every BillItem row of that
bill and the Bill row itself, keeps every other BillItem and Bill row,
and leaves the tile table, hence every stock quantity, unchanged. -/
theorem delete_bill_spec (s : AppState) (billId : Nat) (b : Bill)
    (hb : s.bills.find? (fun x => x.id == billId) = some b) :
    (delete_bill s billId).isSome ∧
    ∀ s', delete_bill s billId = some s' →
      s'.tiles = s.tiles ∧ s'.users = s.users ∧
      (∀ it ∈ s'.billItems, ¬ it.bill_id = billId) ∧
      (∀ it ∈ s.billItems, ¬ it.bill_id = billId → it ∈ s'.billItems) ∧
      (∀ bb ∈ s'.bills, ¬ bb.id = billId) ∧
      (∀ bb ∈ s.bills, ¬ bb.id = billId → bb ∈ s'.bills) := by
  unfold delete_bill
  rw [hb]
  refine ⟨rfl, ?_⟩
  intro s' hs'
  rw [Option.some.injEq] at hs'
  subst hs'
  refine ⟨rfl, rfl, ?_, ?_, ?_, ?_⟩
  · intro it hit
    simpa using (List.mem_filter.mp hit).2
  · intro it hit hne
    exact List.mem_filter.mpr ⟨hit, by simpa using hne⟩
  · intro bb hbb
    simpa using (List.mem_filter.mp hbb).2
  · intro bb hbb hne
    exact List.mem_filter.mpr ⟨hbb, by simpa using hne⟩

/-- Witness for C4: deleting bill 1 from the two-bill state keeps the
catalog and the rows of bill 2. -/
theorem delete_bill_spec_witness :
    sBillDel.tiles = sBill.tiles ∧ item2 ∈ sBillDel.billItems ∧
    bill2 ∈ sBillDel.bills :=
  have h := (delete_bill_spec sBill 1 bill1 (by rfl)).2 sBillDel (by rfl)
  ⟨h.1, h.2.2.2.1 item2 (by simp [sBill, item2]) (by simp [item2]),
    h.2.2.2.2.2 bill2 (by simp [sBill, bill2]) (by simp [bill2])⟩

/-- C5: editing an existing bill rewrites its customer name, customer
mobile, gst and discount, recomputes its total as
subtotal + subtotal * gst / 100 - discount from the already persisted
sum of its BillItem totals, and changes no tile, no BillItem row, no
user and no other bill. -/
theorem edit_bill_spec (s : AppState) (billId : Nat) (f : EditBillForm) (b : Bill)
    (hb : s.bills.find? (fun x => x.id == billId) = some b) :
    (edit_bill s billId f).isSome ∧
    ∀ s', edit_bill s billId f = some s' →
      s'.tiles = s.tiles ∧ s'.billItems = s.billItems ∧ s'.users = s.users ∧
      (∀ (i : Nat) (bb : Bill), s.bills[i]? = some bb → ¬ bb.id = billId →
        s'.bills[i]? = some bb) ∧
      (∀ (i : Nat) (bb : Bill), s.bills[i]? = some bb → bb.id = billId →
        s'.bills[i]? = some { bb with
          customer_name := some f.customer_name
          customer_mobile := f.customer_mobile
          gst := f.gst
          discount := f.discount
          total := billSubtotal s billId + billSubtotal s billId * f.gst / 100
            - f.discount }) := by
  unfold edit_bill
  rw [hb]
  refine ⟨rfl, ?_⟩
  intro s' hs'
  rw [Option.some.injEq] at hs'
  subst hs'
  refine ⟨rfl, rfl, rfl, ?_, ?_⟩
  · intro i bb hbb hne
    dsimp only
    rw [List.getElem?_map, hbb]
    simp [hne]
  · intro i bb hbb heq
    dsimp only
    rw [List.getElem?_map, hbb]
    simp [heq]

/-- Witness for C5: editing bill 1 with gst 10 and discount 50 yields
total 500 + 50 - 50 = 500, keeps tiles and line items, keeps bill 2. -/
theorem edit_bill_spec_witness :
    sBillEdited.tiles = sBill.tiles ∧ sBillEdited.billItems = sBill.billItems ∧
    sBillEdited.bills[1]? = some bill2 ∧
    sBillEdited.bills[0]? = some { bill1 with
      customer_name := some ef0.customer_name
      customer_mobile := ef0.customer_mobile
      gst := ef0.gst
      discount := ef0.discount
      total := billSubtotal sBill 1 + billSubtotal sBill 1 * ef0.gst / 100
        - ef0.discount } :=
  have h := (edit_bill_spec sBill 1 ef0 bill1 (by rfl)).2 sBillEdited (by
    simp [edit_bill, billSubtotal, sBill, bill1, bill2, item1, item2, ef0,
      sBillEdited, bill1Edited]
    norm_num)
  ⟨h.1, h.2.1, h.2.2.2.1 1 bill2 (by rfl) (by simp [bill2]),
    h.2.2.2.2 0 bill1 (by rfl) rfl⟩

/-- C6: login fails with invalid credentials when no user has the exact
username or the stored hash does not match; it fails as deactivated when
the user is found, the hash matches, but the account is inactive; on
success it sets the session to the user id, username and role; and in
every case the four tables are unchanged. -/
theorem login_spec (checkHash : String → String → Bool) (s : AppState)
    (username password : String) :
    ((login checkHash s username password).1.users = s.users ∧
     (login checkHash s username password).1.tiles = s.tiles ∧
     (login checkHash s username password).1.bills = s.bills ∧
     (login checkHash s username password).1.billItems = s.billItems) ∧
    (s.users.find? (fun v => v.username == username) = none →
      login checkHash s username password = (s, .invalidCredentials)) ∧
    (∀ u : User, s.users.find? (fun v => v.username == username) = some u →
      checkHash u.password password = false →
      login checkHash s username password = (s, .invalidCredentials)) ∧
    (∀ u : User, s.users.find? (fun v => v.username == username) = some u →
      checkHash u.password password = true → u.is_active = false →
      login checkHash s username password = (s, .accountDeactivated)) ∧
    (∀ u : User, s.users.find? (fun v => v.username == username) = some u →
      checkHash u.password password = true → u.is_active = true →
      login checkHash s username password =
        ({ s with session := some { user_id := u.id, user := u.username, role := u.role } },
         .success)) := by
  refine ⟨?_, ?_, ?_, ?_, ?_⟩
  · unfold login
    cases hf : s.users.find? (fun v => v.username == username) with
    | none => exact ⟨rfl, rfl, rfl, rfl⟩
    | some u =>
      dsimp only
      split
      · split
        · exact ⟨rfl, rfl, rfl, rfl⟩
        · exact ⟨rfl, rfl, rfl, rfl⟩
      · exact ⟨rfl, rfl, rfl, rfl⟩
  · intro hf
    unfold login
    rw [hf]
  · intro u hf hc
    unfold login
    rw [hf]
    dsimp only
    rw [if_neg (by simp [hc])]
  · intro u hf hc ha
    unfold login
    rw [hf]
    dsimp only
    rw [if_pos (by simp [hc]), if_neg (by simp [ha])]
  · intro u hf hc ha
    unfold login
    rw [hf]
    dsimp only
    rw [if_pos (by simp [hc]), if_pos (by simp [ha])]

/-- Witness for C6: the stored admin with the matching password logs in
and the session carries id 7, username alice and role admin. -/
theorem login_spec_witness :
    login (fun a b => a == b) sAuth "alice" "pw123456" =
      ({ sAuth with session := some { user_id := 7, user := "alice", role := "admin" } },
       .success) :=
  (login_spec (fun a b => a == b) sAuth "alice" "pw123456").2.2.2.2 userAlice
    (by rfl) (by rfl) (by rfl)

/-- C7: creating a user with an already existing username fails with a
validation message and leaves the user table unchanged; every validation
failure leaves the state unchanged; and creation succeeds only when the
username is absent, the password has at least 6 characters and matches
its confirmation, and the role is admin or staff, in which case exactly
the one new row is appended. -/
theorem create_user_spec (hash : String → String) (s : AppState)
    (uid : Option Nat) (f : CreateUserForm) (newId : Nat) :
    ((s.users.find? (fun u => u.username == f.username)).isSome →
      (create_user hash s uid f newId).1 = s ∧
      ((create_user hash s uid f newId).2).isSome) ∧
    (∀ msg, (create_user hash s uid f newId).2 = some msg →
      (create_user hash s uid f newId).1 = s) ∧
    ((create_user hash s uid f newId).2 = none →
      s.users.find? (fun u => u.username == f.username) = none ∧
      6 ≤ f.password.length ∧ f.password = f.confirm_password ∧
      (f.role = "admin" ∨ f.role = "staff") ∧
      (create_user hash s uid f newId).1.users = s.users ++
        [{ id := newId, username := f.username, email := f.email,
           password := hash f.password, role := f.role, is_active := true,
           created_by := uid }]) := by
  unfold create_user
  split_ifs with h1 h2 h3 h4 h5 h6 h7 <;>
    first
      | exact ⟨fun _ => ⟨rfl, rfl⟩, fun _ _ => rfl, fun hn => by simp at hn⟩
      | exact ⟨fun hdup => absurd hdup h3, fun msg hm => by simp at hm,
          fun _ => ⟨Option.not_isSome_iff_eq_none.mp h3, by omega, h6, h7, rfl⟩⟩

/-- Witness for C7: creating a second alice fails and the user table is
unchanged. -/
theorem create_user_spec_witness :
    (create_user (fun p => p) sAuth (some 7) cf0 8).1 = sAuth ∧
    ((create_user (fun p => p) sAuth (some 7) cf0 8).2).isSome :=
  (create_user_spec (fun p => p) sAuth (some 7) cf0 8).1 (by rfl)

/-- C8: a logged-in admin acting on their own account is rejected by
both the toggle-active and the delete handlers, and the state is carried
back unchanged. -/
theorem self_protection (s : AppState) (uid : Nat) (u : User)
    (hu : s.users.find? (fun v => v.id == uid) = some u) :
    toggle_user_active s uid uid = .selfRejected s ∧
    delete_user s uid uid = .selfRejected s := by
  have hid : u.id = uid := by simpa using List.find?_some hu
  constructor
  · unfold toggle_user_active
    rw [hu]
    dsimp only
    rw [if_pos hid]
  · unfold delete_user
    rw [hu]
    dsimp only
    rw [if_pos hid]

/-- Witness for C8: the stored admin (id 7) cannot deactivate or delete
their own account. -/
theorem self_protection_witness :
    toggle_user_active sAuth 7 7 = .selfRejected sAuth ∧
    delete_user sAuth 7 7 = .selfRejected sAuth :=
  self_protection sAuth 7 userAlice (by rfl)

/-- C9: editing or deleting a stock item leaves the Bill table and the
BillItem table unchanged, so every persisted bill keeps its snapshotted
lines (name, size, price, quantity, line total) and its total. -/
theorem snapshot_stability (s : AppState) (id : Nat) (f : TileForm) :
    (∀ s', edit_tile s id f = some s' →
      s'.bills = s.bills ∧ s'.billItems = s.billItems) ∧
    (∀ s', delete_tile s id = some s' →
      s'.bills = s.bills ∧ s'.billItems = s.billItems) := by
  constructor
  · intro s' hs'
    unfold edit_tile at hs'
    cases hf : s.tiles.find? (fun t => t.id == id) with
    | none =>
      rw [hf] at hs'
      exact absurd hs' (by simp)
    | some t =>
      rw [hf] at hs'
      rw [Option.some.injEq] at hs'
      subst hs'
      exact ⟨rfl, rfl⟩
  · intro s' hs'
    unfold delete_tile at hs'
    cases hf : s.tiles.find? (fun t => t.id == id) with
    | none =>
      rw [hf] at hs'
      exact absurd hs' (by simp)
    | some t =>
      rw [hf] at hs'
      rw [Option.some.injEq] at hs'
      subst hs'
      exact ⟨rfl, rfl⟩

/-- Witness for C9: editing tile 1 to brand A2, price 120, quantity 9
leaves both persisted bills and their lines untouched. -/
theorem snapshot_stability_witness :
    sBillTileEd.bills = sBill.bills ∧ sBillTileEd.billItems = sBill.billItems :=
  (snapshot_stability sBill 1 tf0).1 sBillTileEd (by rfl)

end TilesStore
